import Mathlib

/-!
# zephyr-mqtt-cpp-publisher: the MQTT publisher and its loop

A shallow embedding of `src/mqtt_publisher.cpp` and of the publish loop of
`src/main.cpp`.

The Zephyr MQTT library, the random source and the kernel sleep are not part of
the repository; they are a parameter `Zephyr W` over an arbitrary world `W`.
Every library call returns its `int` result, the events the library handed to
the registered callback (`m_client.evt_cb = mqtt_event_handler`) while the call
ran, and the next world.  `struct mqtt_client`, the broker address and the two
buffers are only ever passed to the library, so they live inside `W`; the model
starts once `MqttPublisher::initialize` has filled them in and registered the
callback.  A `const char*` argument is modelled by the text before its
terminator.

Every call that leaves the class is appended to a log, together with a marker
for each entry into `MqttPublisher::poll`, so that the order and the number of
calls can be stated.
-/

namespace MqttPub

/-! ## Data model -/

/-- Event kinds the handler switches on; every other kind of `enum mqtt_evt_type`
takes the `default` branch. -/
inductive mqtt_evt_type
  | MQTT_EVT_CONNACK
  | MQTT_EVT_DISCONNECT
  | MQTT_EVT_PUBACK
  | MQTT_EVT_PUBLISH
  | other (code : Nat)
  deriving DecidableEq, Repr

/-- The fields of `struct mqtt_evt` the handler reads: `type`, `result` and
`param.puback.message_id`. -/
structure mqtt_evt where
  type : mqtt_evt_type
  result : Int
  message_id : Nat
  deriving DecidableEq, Repr

/-- Counted string `struct mqtt_utf8`: the pointer is modelled by the string it
points to. -/
structure mqtt_utf8 where
  utf8 : String
  size : Nat
  deriving DecidableEq, Repr

/-- Topic with its quality of service, `struct mqtt_topic`. -/
structure mqtt_topic where
  topic : mqtt_utf8
  qos : Nat
  deriving DecidableEq, Repr

/-- Counted byte string `struct mqtt_binstr`. -/
structure mqtt_binstr where
  data : String
  len : Nat
  deriving DecidableEq, Repr

/-- Topic and payload of a PUBLISH, `struct mqtt_publish_message`. -/
structure mqtt_publish_message where
  topic : mqtt_topic
  payload : mqtt_binstr
  deriving DecidableEq, Repr

/-- The request handed to `mqtt_publish`, `struct mqtt_publish_param`.
`message_id` is a `uint16_t`. -/
structure mqtt_publish_param where
  message : mqtt_publish_message
  message_id : Nat
  dup_flag : Nat
  retain_flag : Nat
  deriving DecidableEq, Repr

/-- Result of `memset(&param, 0, sizeof(param))`. -/
def mqtt_publish_param.zero : mqtt_publish_param :=
  { message := { topic := { topic := { utf8 := "", size := 0 }, qos := 0 },
                 payload := { data := "", len := 0 } },
    message_id := 0, dup_flag := 0, retain_flag := 0 }

/-- Modelled from the spec: the Zephyr header defining `MQTT_QOS_1_AT_LEAST_ONCE`
is not in the repository; the spec gives QoS 1 (at least once) as the value 1. -/
def MQTT_QOS_1_AT_LEAST_ONCE : Nat := 1

/-- The C library `strlen`: number of bytes before the terminator. -/
def strlen (s : String) : Nat := s.utf8ByteSize

/-- Outcome of one call into the MQTT library. -/
structure Call (W : Type) where
  ret : Int
  events : List mqtt_evt
  world : W

/-- Everything outside the repository that the publisher calls. -/
structure Zephyr (W : Type) where
  mqtt_connect : W → Call W
  mqtt_input : W → Call W
  mqtt_live : W → Call W
  mqtt_publish : mqtt_publish_param → W → Call W
  sys_rand32_get : W → Nat × W
  k_sleep : Nat → W → W

/-- One entry of the call log. -/
inductive Action
  | mqtt_connect
  | mqtt_input
  | mqtt_live
  | mqtt_publish (param : mqtt_publish_param)
  | sys_rand32_get (value : Nat)
  | k_sleep (ms : Nat)
  | poll
  deriving DecidableEq, Repr

/-- The one data member of `class MqttPublisher` that the class itself reads and
writes. -/
structure MqttPublisher where
  m_connected : Bool
  deriving DecidableEq, Repr

/-- A publisher object together with the world it runs in and the log so far. -/
structure Sys (W : Type) where
  self : MqttPublisher
  world : W
  log : List Action
  deriving DecidableEq

/-! ## `mqtt_publisher.cpp` -/

/-- Constructor `MqttPublisher::MqttPublisher`. -/
def MqttPublisher.new : MqttPublisher := { m_connected := false }

/-- Callback `MqttPublisher::mqtt_event_handler`. -/
def mqtt_event_handler (self : MqttPublisher) (evt : mqtt_evt) : MqttPublisher :=
  match evt.type with
  | .MQTT_EVT_CONNACK =>
    if evt.result = 0 then { self with m_connected := true }
    else { self with m_connected := false }
  | .MQTT_EVT_DISCONNECT => { self with m_connected := false }
  | .MQTT_EVT_PUBACK => self
  | .MQTT_EVT_PUBLISH => self
  | .other _ => self

/-- The library running the callback on each event of a call, in order. -/
def deliver (self : MqttPublisher) (events : List mqtt_evt) : MqttPublisher :=
  events.foldl mqtt_event_handler self

/-- Accessor `MqttPublisher::is_connected`. -/
def is_connected (self : MqttPublisher) : Bool := self.m_connected

/-- Kernel call `k_sleep(K_MSEC(ms))`. -/
def k_sleep {W : Type} (z : Zephyr W) (ms : Nat) (s : Sys W) : Sys W :=
  { self := s.self, world := z.k_sleep ms s.world, log := s.log ++ [Action.k_sleep ms] }

/-- Method `MqttPublisher::poll`. -/
def poll {W : Type} (z : Zephyr W) (s : Sys W) : Sys W :=
  if s.self.m_connected then
    let i := z.mqtt_input s.world
    let l := z.mqtt_live i.world
    { self := deliver (deliver s.self i.events) l.events,
      world := l.world,
      log := s.log ++ [Action.poll, Action.mqtt_input, Action.mqtt_live] }
  else
    { self := s.self, world := s.world, log := s.log ++ [Action.poll] }

/-- The loop `for (int i = 0; i < 10 && !m_connected; i++)` of `connect`, by the
number `n = 10 - i` of rounds still allowed. -/
def connect_wait {W : Type} (z : Zephyr W) : Nat → Sys W → Sys W
  | 0, s => s
  | n + 1, s =>
    if s.self.m_connected then s
    else connect_wait z n (k_sleep z 100 (poll z s))

/-- Method `MqttPublisher::connect`. -/
def connect {W : Type} (z : Zephyr W) (s : Sys W) : Int × Sys W :=
  let c := z.mqtt_connect s.world
  let s1 : Sys W :=
    { self := deliver s.self c.events, world := c.world,
      log := s.log ++ [Action.mqtt_connect] }
  if c.ret ≠ 0 then (c.ret, s1)
  else
    let s2 := connect_wait z 10 s1
    (if s2.self.m_connected then 0 else -1, s2)

/-- The request `publish` fills in for a topic, a payload and the value drawn
from `sys_rand32_get`. -/
def publish_param (topic payload : String) (rand : Nat) : mqtt_publish_param :=
  let param := mqtt_publish_param.zero
  let param := { param with message.topic.qos := MQTT_QOS_1_AT_LEAST_ONCE }
  let param := { param with message.topic.topic.utf8 := topic }
  let param := { param with message.topic.topic.size := strlen topic }
  let param := { param with message.payload.data := payload }
  let param := { param with message.payload.len := strlen payload }
  let param := { param with message_id := rand % 2 ^ 16 }
  let param := { param with dup_flag := 0 }
  { param with retain_flag := 0 }

/-- Method `MqttPublisher::publish`. -/
def publish {W : Type} (z : Zephyr W) (topic payload : String) (s : Sys W) :
    Int × Sys W :=
  if !s.self.m_connected then (-1, s)
  else
    let r := z.sys_rand32_get s.world
    let rand := r.1 % 2 ^ 32
    let param := publish_param topic payload rand
    let c := z.mqtt_publish param r.2
    let s1 : Sys W :=
      { self := deliver s.self c.events, world := c.world,
        log := s.log ++ [Action.sys_rand32_get rand, Action.mqtt_publish param] }
    if c.ret ≠ 0 then (c.ret, s1) else (0, s1)

/-! ## `app_config.h` -/

/-- Setting `MQTT_PUB_TOPIC`. -/
def MQTT_PUB_TOPIC : String := "sensors/temperature"

/-- Setting `PUBLISH_INTERVAL_MS`. -/
def PUBLISH_INTERVAL_MS : Nat := 5000

/-! ## The publish loop of `main.cpp` -/

/-- Function `read_temperature`: `20.0f + (sys_rand32_get() % 100) / 10.0f`, kept
exactly as a number of tenths of a degree. -/
def read_temperature {W : Type} (z : Zephyr W) (s : Sys W) : Nat × Sys W :=
  let r := z.sys_rand32_get s.world
  let rand := r.1 % 2 ^ 32
  (200 + rand % 100,
    { self := s.self, world := r.2, log := s.log ++ [Action.sys_rand32_get rand] })

/-- The payload text `snprintf` writes for the format
`\x7b"temperature": %.2f, "count": %u\x7d`, the temperature given in tenths. -/
def snprintf_payload (tenths count : Nat) : String :=
  "\x7b\"temperature\": " ++ toString (tenths / 10) ++ "." ++ toString (tenths % 10)
    ++ "0, \"count\": " ++ toString count ++ "\x7d"

/-- A statement the body of `while (true)` in `main` executes itself. -/
inductive MainStep
  | connect (ret : Int)
  | read_temperature
  | publish (topic payload : String) (ret : Int)
  | poll
  | k_sleep (ms : Nat)
  deriving DecidableEq, Repr

/-- Locals of `main` that live across iterations, and the statements executed so
far. -/
structure MainState (W : Type) where
  publisher : Sys W
  loop_count : Nat
  steps : List MainStep
  deriving DecidableEq

/-- The part of the loop body from `read_temperature()` down to the closing
`k_sleep(K_MSEC(PUBLISH_INTERVAL_MS))`. -/
def publish_tick {W : Type} (z : Zephyr W) (m : MainState W) : MainState W :=
  let t := read_temperature z m.publisher
  let payload := snprintf_payload t.1 m.loop_count
  let p := publish z MQTT_PUB_TOPIC payload t.2
  { publisher := k_sleep z PUBLISH_INTERVAL_MS (poll z p.2),
    loop_count := (m.loop_count + 1) % 2 ^ 32,
    steps := m.steps ++ [MainStep.read_temperature,
      MainStep.publish MQTT_PUB_TOPIC payload p.1, MainStep.poll,
      MainStep.k_sleep PUBLISH_INTERVAL_MS] }

/-- One pass through the body of `while (true)` in `main`; `K_SECONDS(5)` is
5000 ms. -/
def loop_body {W : Type} (z : Zephyr W) (m : MainState W) : MainState W :=
  if !is_connected m.publisher.self then
    let c := connect z m.publisher
    if c.1 < 0 then
      { publisher := k_sleep z 5000 c.2,
        loop_count := m.loop_count,
        steps := m.steps ++ [MainStep.connect c.1, MainStep.k_sleep 5000] }
    else
      publish_tick z
        { publisher := c.2, loop_count := m.loop_count,
          steps := m.steps ++ [MainStep.connect c.1] }
  else
    publish_tick z m

/-! ## Running several calls, and reading the log -/

/-- Successive calls `publish(topic, payload)`, one per list entry; the return
codes are collected in order. -/
def publish_all {W : Type} (z : Zephyr W) : List (String × String) → Sys W → List Int × Sys W
  | [], s => ([], s)
  | (topic, payload) :: rest, s =>
    let p := publish z topic payload s
    let q := publish_all z rest p.2
    (p.1 :: q.1, q.2)

/-- Message identifiers of the PUBLISH requests in a log, in issue order. -/
def published_ids : List Action → List Nat
  | [] => []
  | Action.mqtt_publish param :: rest => param.message_id :: published_ids rest
  | _ :: rest => published_ids rest

/-- Values returned by `sys_rand32_get` in a log, in order. -/
def drawn_values : List Action → List Nat
  | [] => []
  | Action.sys_rand32_get value :: rest => value :: drawn_values rest
  | _ :: rest => drawn_values rest

/-! ## A scripted library for concrete runs -/

/-- World of the scripted library: the events still waiting on the inbound
stream, the values the random source will return, and whether the transport
works. -/
structure Wire where
  inbound : List mqtt_evt
  rands : List Nat
  link_up : Bool
  deriving DecidableEq, Repr

/-- An accepting CONNACK. -/
def connack_accepted : mqtt_evt :=
  { type := mqtt_evt_type.MQTT_EVT_CONNACK, result := 0, message_id := 0 }

/-- The event the library raises when it closes the connection. -/
def disconnect_evt (result : Int) : mqtt_evt :=
  { type := mqtt_evt_type.MQTT_EVT_DISCONNECT, result := result, message_id := 0 }

/-- A scripted library.  `mqtt_connect` succeeds when the link is up and raises
no event; `mqtt_input` decodes one waiting event per call; `mqtt_publish`
succeeds when the link is up and otherwise closes the connection, raising
DISCONNECT, and returns the error. -/
def scripted : Zephyr Wire where
  mqtt_connect := fun w =>
    if w.link_up then { ret := 0, events := [], world := w }
    else { ret := -111, events := [], world := w }
  mqtt_input := fun w =>
    match w.inbound with
    | [] => { ret := 0, events := [], world := w }
    | e :: rest => { ret := 0, events := [e], world := { w with inbound := rest } }
  mqtt_live := fun w => { ret := 0, events := [], world := w }
  mqtt_publish := fun _ w =>
    if w.link_up then { ret := 0, events := [], world := w }
    else { ret := -128, events := [disconnect_evt (-128)], world := w }
  sys_rand32_get := fun w => (w.rands.headD 0, { w with rands := w.rands.tail })
  k_sleep := fun _ w => w

/-- A fresh publisher on a working link; an accepting CONNACK is waiting on the
inbound stream. -/
def fresh_with_connack : Sys Wire :=
  { self := MqttPublisher.new,
    world := { inbound := [connack_accepted], rands := [], link_up := true },
    log := [] }

/-- A fresh publisher on a working link whose broker stays silent. -/
def fresh_silent : Sys Wire :=
  { self := MqttPublisher.new,
    world := { inbound := [], rands := [], link_up := true },
    log := [] }

/-- A connected publisher on a working link; the random source will return 5 and
then 3. -/
def connected_up : Sys Wire :=
  { self := { m_connected := true },
    world := { inbound := [], rands := [5, 3], link_up := true },
    log := [] }

/-- A publisher whose flag still says connected while the transport has failed. -/
def connected_down : Sys Wire :=
  { self := { m_connected := true },
    world := { inbound := [], rands := [7], link_up := false },
    log := [] }

/-- Locals of `main` on entering an iteration with the connection lost; the
counter stands at 7. -/
def main_lost : MainState Wire :=
  { publisher := fresh_with_connack, loop_count := 7, steps := [] }

/-- Locals of `main` on entering an iteration while connected; the counter
stands at 7. -/
def main_connected : MainState Wire :=
  { publisher := connected_up, loop_count := 7, steps := [] }

/-! ## Lemmas -/

/-- Events that are not CONNACK never set the flag. -/
theorem deliver_stays_disconnected (self : MqttPublisher) (events : List mqtt_evt)
    (h : self.m_connected = false)
    (hev : ∀ e ∈ events, e.type ≠ mqtt_evt_type.MQTT_EVT_CONNACK) :
    (deliver self events).m_connected = false := by
  induction events generalizing self with
  | nil => simpa [deliver] using h
  | cons e rest ih =>
    have he : e.type ≠ mqtt_evt_type.MQTT_EVT_CONNACK := hev e (List.mem_cons_self _ _)
    have hrest : ∀ x ∈ rest, x.type ≠ mqtt_evt_type.MQTT_EVT_CONNACK :=
      fun x hx => hev x (List.mem_cons_of_mem _ hx)
    have hstep : (mqtt_event_handler self e).m_connected = false := by
      unfold mqtt_event_handler
      cases hty : e.type <;> simp_all
    simpa [deliver] using ih (mqtt_event_handler self e) hstep hrest

/-- While the flag is false every round of the wait loop is a `poll` that touches
nothing, followed by the 100 ms sleep: all `n` rounds are run. -/
theorem connect_wait_disconnected {W : Type} (z : Zephyr W) (n : Nat) (s : Sys W)
    (h : s.self.m_connected = false) :
    connect_wait z n s =
      { self := s.self, world := (z.k_sleep 100)^[n] s.world,
        log := s.log ++ (List.replicate n [Action.poll, Action.k_sleep 100]).flatten } := by
  induction n generalizing s with
  | zero => simp [connect_wait]
  | succ n ih =>
    have hp : (k_sleep z 100 (poll z s)).self.m_connected = false := by
      simp [k_sleep, poll, h]
    rw [connect_wait, if_neg (by simp [h]), ih _ hp]
    simp [k_sleep, poll, h, List.replicate_succ]

/-- Once the flag is true the wait loop runs no round. -/
theorem connect_wait_connected {W : Type} (z : Zephyr W) (n : Nat) (s : Sys W)
    (h : s.self.m_connected = true) : connect_wait z n s = s := by
  cases n <;> simp [connect_wait, h]

theorem published_ids_append (l₁ l₂ : List Action) :
    published_ids (l₁ ++ l₂) = published_ids l₁ ++ published_ids l₂ := by
  induction l₁ with
  | nil => rfl
  | cons a rest ih => cases a <;> simp [published_ids, ih]

theorem drawn_values_append (l₁ l₂ : List Action) :
    drawn_values (l₁ ++ l₂) = drawn_values l₁ ++ drawn_values l₂ := by
  induction l₁ with
  | nil => rfl
  | cons a rest ih => cases a <;> simp [drawn_values, ih]

/-- What `publish` leaves behind when the flag is true. -/
theorem publish_connected_state {W : Type} (z : Zephyr W) (topic payload : String)
    (s : Sys W) (h : s.self.m_connected = true) :
    (publish z topic payload s).2 =
      { self := deliver s.self
          (z.mqtt_publish (publish_param topic payload ((z.sys_rand32_get s.world).1 % 2 ^ 32))
            (z.sys_rand32_get s.world).2).events,
        world :=
          (z.mqtt_publish (publish_param topic payload ((z.sys_rand32_get s.world).1 % 2 ^ 32))
            (z.sys_rand32_get s.world).2).world,
        log := s.log ++ [Action.sys_rand32_get ((z.sys_rand32_get s.world).1 % 2 ^ 32),
          Action.mqtt_publish
            (publish_param topic payload ((z.sys_rand32_get s.world).1 % 2 ^ 32))] } := by
  unfold publish
  simp only [h, Bool.not_true, Bool.false_eq_true, if_false]
  split <;> rfl

/-- The value `publish` returns when the flag is true. -/
theorem publish_connected_ret {W : Type} (z : Zephyr W) (topic payload : String)
    (s : Sys W) (h : s.self.m_connected = true) :
    (publish z topic payload s).1 =
      (z.mqtt_publish (publish_param topic payload ((z.sys_rand32_get s.world).1 % 2 ^ 32))
        (z.sys_rand32_get s.world).2).ret := by
  unfold publish
  simp only [h, Bool.not_true, Bool.false_eq_true, if_false]
  split
  · rfl
  · next hr => exact (not_not.mp hr).symm

/-- What `publish` does when the flag is false. -/
theorem publish_disconnected {W : Type} (z : Zephyr W) (topic payload : String)
    (s : Sys W) (h : s.self.m_connected = false) :
    publish z topic payload s = (-1, s) := by
  simp [publish, h]

/-- One `publish` keeps the identifiers in the log equal to the drawn values
reduced to 16 bits. -/
theorem publish_ids_follow_draws {W : Type} (z : Zephyr W) (topic payload : String)
    (s : Sys W)
    (h : published_ids s.log = (drawn_values s.log).map (fun v => v % 2 ^ 16)) :
    published_ids (publish z topic payload s).2.log =
      (drawn_values (publish z topic payload s).2.log).map (fun v => v % 2 ^ 16) := by
  cases hc : s.self.m_connected with
  | false => rw [publish_disconnected z topic payload s hc]; exact h
  | true =>
    rw [publish_connected_state z topic payload s hc]
    simp only [published_ids_append, drawn_values_append, published_ids, drawn_values, h,
      List.map_append, List.map_cons, List.map_nil]
    rfl

theorem publish_all_ids_follow_draws {W : Type} (z : Zephyr W)
    (calls : List (String × String)) (s : Sys W)
    (h : published_ids s.log = (drawn_values s.log).map (fun v => v % 2 ^ 16)) :
    published_ids (publish_all z calls s).2.log =
      (drawn_values (publish_all z calls s).2.log).map (fun v => v % 2 ^ 16) := by
  induction calls generalizing s with
  | nil => simpa [publish_all] using h
  | cons c rest ih =>
    obtain ⟨topic, payload⟩ := c
    simpa [publish_all] using ih _ (publish_ids_follow_draws z topic payload s h)

/-! ## The publisher's contract -/

/-- Claim C1. Whenever `is_connected()` is false, `publish(topic, payload)` returns
-1 and leaves everything as it was: the log gains no entry (so `mqtt_publish` is
not called and no value is drawn from `sys_rand32_get`), the world is untouched
and the connection flag keeps its value. -/
theorem publish_rejected_when_not_connected {W : Type} (z : Zephyr W)
    (topic payload : String) (s : Sys W) (h : is_connected s.self = false) :
    publish z topic payload s = (-1, s) ∧
      (publish z topic payload s).2.log = s.log ∧
      is_connected (publish z topic payload s).2.self = is_connected s.self := by
  have hp := publish_disconnected z topic payload s h
  rw [hp]
  exact ⟨rfl, rfl, rfl⟩

theorem publish_rejected_when_not_connected_witness :
    is_connected fresh_with_connack.self = false ∧
      (publish scripted "sensors/temperature" "21.5" fresh_with_connack
          = (-1, fresh_with_connack) ∧
        (publish scripted "sensors/temperature" "21.5" fresh_with_connack).2.log
          = fresh_with_connack.log ∧
        is_connected (publish scripted "sensors/temperature" "21.5" fresh_with_connack).2.self
          = is_connected fresh_with_connack.self) :=
  ⟨by decide,
    publish_rejected_when_not_connected scripted "sensors/temperature" "21.5"
      fresh_with_connack (by decide)⟩

/-- Claim C2, evaluated on the code. A fresh publisher; `mqtt_connect` succeeds and
an accepting CONNACK is waiting for `mqtt_input`. Every `poll` of the wait loop
skips `mqtt_input` because the flag is still false, so the CONNACK is never
read: `connect()` returns -1 after ten rounds and `is_connected()` is false. -/
theorem connect_never_reads_waiting_connack :
    is_connected fresh_with_connack.self = false ∧
      (scripted.mqtt_connect fresh_with_connack.world).ret = 0 ∧
      (scripted.mqtt_input (scripted.mqtt_connect fresh_with_connack.world).world).events
        = [connack_accepted] ∧
      (connect scripted fresh_with_connack).1 = -1 ∧
      is_connected (connect scripted fresh_with_connack).2.self = false ∧
      Action.mqtt_input ∉ (connect scripted fresh_with_connack).2.log ∧
      (connect scripted fresh_with_connack).2.world.inbound = [connack_accepted] := by
  decide

/-- Claim C3. From the disconnected state, when `mqtt_connect` returns 0 and no
CONNACK event is delivered, `connect()` runs exactly ten rounds, each one `poll`
followed by a 100 ms sleep, then returns -1 with `is_connected()` false. -/
theorem connect_times_out_after_ten_rounds {W : Type} (z : Zephyr W) (s : Sys W)
    (h : is_connected s.self = false)
    (hret : (z.mqtt_connect s.world).ret = 0)
    (hev : ∀ e ∈ (z.mqtt_connect s.world).events,
      e.type ≠ mqtt_evt_type.MQTT_EVT_CONNACK) :
    (connect z s).1 = -1 ∧
      is_connected (connect z s).2.self = false ∧
      (connect z s).2.log =
        s.log ++ Action.mqtt_connect ::
          (List.replicate 10 [Action.poll, Action.k_sleep 100]).flatten := by
  have hd : (deliver s.self (z.mqtt_connect s.world).events).m_connected = false :=
    deliver_stays_disconnected s.self _ h hev
  have hw := connect_wait_disconnected z 10
    { self := deliver s.self (z.mqtt_connect s.world).events,
      world := (z.mqtt_connect s.world).world,
      log := s.log ++ [Action.mqtt_connect] } hd
  unfold connect
  simp only [hret, ne_eq, not_true_eq_false, if_false, hw, hd, is_connected]
  simp

theorem connect_times_out_after_ten_rounds_witness :
    is_connected fresh_silent.self = false ∧
      (scripted.mqtt_connect fresh_silent.world).ret = 0 ∧
      (∀ e ∈ (scripted.mqtt_connect fresh_silent.world).events,
        e.type ≠ mqtt_evt_type.MQTT_EVT_CONNACK) ∧
      ((connect scripted fresh_silent).1 = -1 ∧
        is_connected (connect scripted fresh_silent).2.self = false ∧
        (connect scripted fresh_silent).2.log =
          fresh_silent.log ++ Action.mqtt_connect ::
            (List.replicate 10 [Action.poll, Action.k_sleep 100]).flatten) :=
  ⟨by decide, by decide, by decide,
    connect_times_out_after_ten_rounds scripted fresh_silent (by decide) (by decide)
      (by decide)⟩

/-- Claim C4 as stated fails: on a connected publisher `connect()` does call
`mqtt_connect`. -/
theorem connect_when_connected_calls_mqtt_connect :
    is_connected connected_up.self = true ∧
      connected_up.log = [] ∧
      (connect scripted connected_up).2.log = [Action.mqtt_connect] ∧
      connect scripted connected_up ≠ (0, connected_up) := by
  decide

/-- Claim C4, amended. On a connected publisher `connect()` calls `mqtt_connect`
exactly once; when no event raised during that call clears the flag, it runs no
`poll` and no sleep, leaves the state connected and returns the result of
`mqtt_connect` (0 when that call succeeds). -/
theorem connect_when_connected {W : Type} (z : Zephyr W) (s : Sys W)
    (_h : is_connected s.self = true)
    (hev : is_connected (deliver s.self (z.mqtt_connect s.world).events) = true) :
    (connect z s).1 = (z.mqtt_connect s.world).ret ∧
      (connect z s).2.log = s.log ++ [Action.mqtt_connect] ∧
      (connect z s).2.world = (z.mqtt_connect s.world).world ∧
      is_connected (connect z s).2.self = true := by
  have hw := connect_wait_connected z 10
    { self := deliver s.self (z.mqtt_connect s.world).events,
      world := (z.mqtt_connect s.world).world,
      log := s.log ++ [Action.mqtt_connect] } hev
  unfold connect
  by_cases hret : (z.mqtt_connect s.world).ret = 0
  · simp only [hret, ne_eq, not_true_eq_false, if_false, hw]
    simp only [is_connected] at hev
    simp [hev, is_connected]
  · simp only [ne_eq, hret, not_false_eq_true, if_true]
    simpa [is_connected] using hev

theorem connect_when_connected_witness :
    is_connected connected_up.self = true ∧
      is_connected
        (deliver connected_up.self (scripted.mqtt_connect connected_up.world).events) = true ∧
      ((connect scripted connected_up).1 = (scripted.mqtt_connect connected_up.world).ret ∧
        (connect scripted connected_up).2.log = connected_up.log ++ [Action.mqtt_connect] ∧
        (connect scripted connected_up).2.world
          = (scripted.mqtt_connect connected_up.world).world ∧
        is_connected (connect scripted connected_up).2.self = true) :=
  ⟨by decide, by decide,
    connect_when_connected scripted connected_up (by decide) (by decide)⟩

/-- Claim C5. Whatever the state was, after the handler has processed a CONNACK
event the publisher is connected exactly when the result code of the event is 0,
and disconnected for every other result code. -/
theorem connack_sets_flag_by_result (self : MqttPublisher) (evt : mqtt_evt)
    (h : evt.type = mqtt_evt_type.MQTT_EVT_CONNACK) :
    (is_connected (mqtt_event_handler self evt) = true ↔ evt.result = 0) ∧
      (evt.result ≠ 0 → is_connected (mqtt_event_handler self evt) = false) := by
  unfold mqtt_event_handler is_connected
  by_cases hr : evt.result = 0 <;> simp [h, hr]

theorem connack_sets_flag_by_result_witness :
    connack_accepted.type = mqtt_evt_type.MQTT_EVT_CONNACK ∧
      ((is_connected (mqtt_event_handler MqttPublisher.new connack_accepted) = true ↔
          connack_accepted.result = 0) ∧
        (connack_accepted.result ≠ 0 →
          is_connected (mqtt_event_handler MqttPublisher.new connack_accepted) = false)) :=
  ⟨rfl, connack_sets_flag_by_result MqttPublisher.new connack_accepted rfl⟩

/-- Claim C6. Whatever the state was, after the handler has processed a DISCONNECT
event `is_connected()` is false, and a `publish` called right after returns -1
without drawing an identifier or calling `mqtt_publish`: nothing at all changes. -/
theorem disconnect_event_blocks_publish {W : Type} (z : Zephyr W) (s : Sys W)
    (evt : mqtt_evt) (topic payload : String)
    (h : evt.type = mqtt_evt_type.MQTT_EVT_DISCONNECT) :
    is_connected (mqtt_event_handler s.self evt) = false ∧
      publish z topic payload { s with self := mqtt_event_handler s.self evt } =
        (-1, { s with self := mqtt_event_handler s.self evt }) := by
  have hf : (mqtt_event_handler s.self evt).m_connected = false := by
    unfold mqtt_event_handler
    simp [h]
  exact ⟨hf, publish_disconnected z topic payload _ hf⟩

theorem disconnect_event_blocks_publish_witness :
    (disconnect_evt 0).type = mqtt_evt_type.MQTT_EVT_DISCONNECT ∧
      (is_connected (mqtt_event_handler connected_up.self (disconnect_evt 0)) = false ∧
        publish scripted "sensors/temperature" "21.5"
            { connected_up with
              self := mqtt_event_handler connected_up.self (disconnect_evt 0) } =
          (-1, { connected_up with
            self := mqtt_event_handler connected_up.self (disconnect_evt 0) })) :=
  ⟨rfl,
    disconnect_event_blocks_publish scripted connected_up (disconnect_evt 0)
      "sensors/temperature" "21.5" rfl⟩

/-- Claim C7 as stated fails: two accepted `publish` calls on one connection, the
identifier source returning 5 and then 3, send the identifiers 5 and 3. -/
theorem message_ids_not_increasing :
    is_connected connected_up.self = true ∧
      (publish_all scripted [("t", "a"), ("t", "b")] connected_up).1 = [0, 0] ∧
      is_connected (publish_all scripted [("t", "a"), ("t", "b")] connected_up).2.self = true ∧
      published_ids (publish_all scripted [("t", "a"), ("t", "b")] connected_up).2.log
        = [5, 3] ∧
      ¬ List.Pairwise (fun a b => a < b)
        (published_ids (publish_all scripted [("t", "a"), ("t", "b")] connected_up).2.log) := by
  decide

/-- Claim C7, amended. For every sequence of `publish` calls and every behaviour
of the identifier source, the identifiers placed in the PUBLISH requests are, in
issue order, exactly the values `sys_rand32_get` returned, each reduced modulo
2^16: one draw per request. -/
theorem message_ids_are_truncated_draws {W : Type} (z : Zephyr W)
    (calls : List (String × String)) (self : MqttPublisher) (w : W) :
    published_ids (publish_all z calls { self := self, world := w, log := [] }).2.log =
      (drawn_values (publish_all z calls { self := self, world := w, log := [] }).2.log).map
        (fun v => v % 2 ^ 16) :=
  publish_all_ids_follow_draws z calls _ rfl

/-- Claim C8 as stated fails: the library can raise DISCONNECT while `mqtt_publish`
runs, and then `publish` returns the error with the publisher disconnected. -/
theorem publish_can_clear_connection_flag :
    is_connected connected_down.self = true ∧
      (publish scripted "t" "p" connected_down).1 = -128 ∧
      is_connected (publish scripted "t" "p" connected_down).2.self = false := by
  decide

/-- Claim C8, amended. On a connected publisher `publish(topic, payload)` draws one
value and hands the library exactly one PUBLISH request, with QoS 1, dup and
retain 0, the given topic and payload with their `strlen` lengths; it returns
what `mqtt_publish` returned (so 0 exactly when the library accepts). The
connection state afterwards is the old one updated by the events the library
raised during `mqtt_publish`: unchanged when it raised none. -/
theorem publish_when_connected {W : Type} (z : Zephyr W) (topic payload : String)
    (s : Sys W) (h : is_connected s.self = true) :
    ∃ rand param,
      rand = (z.sys_rand32_get s.world).1 % 2 ^ 32 ∧
      (publish z topic payload s).2.log =
        s.log ++ [Action.sys_rand32_get rand, Action.mqtt_publish param] ∧
      param.message.topic.qos = 1 ∧ param.dup_flag = 0 ∧ param.retain_flag = 0 ∧
      param.message.topic.topic.utf8 = topic ∧
      param.message.topic.topic.size = strlen topic ∧
      param.message.payload.data = payload ∧
      param.message.payload.len = strlen payload ∧
      param.message_id = rand % 2 ^ 16 ∧
      (publish z topic payload s).1 =
        (z.mqtt_publish param (z.sys_rand32_get s.world).2).ret ∧
      ((publish z topic payload s).1 = 0 ↔
        (z.mqtt_publish param (z.sys_rand32_get s.world).2).ret = 0) ∧
      (publish z topic payload s).2.self =
        deliver s.self (z.mqtt_publish param (z.sys_rand32_get s.world).2).events ∧
      ((z.mqtt_publish param (z.sys_rand32_get s.world).2).events = [] →
        is_connected (publish z topic payload s).2.self = true) := by
  have hs := publish_connected_state z topic payload s h
  have hr := publish_connected_ret z topic payload s h
  refine ⟨(z.sys_rand32_get s.world).1 % 2 ^ 32,
    publish_param topic payload ((z.sys_rand32_get s.world).1 % 2 ^ 32),
    rfl, ?_, rfl, rfl, rfl, rfl, rfl, rfl, rfl, rfl, hr, ?_, ?_, ?_⟩
  · rw [hs]
  · rw [hr]
  · rw [hs]
  · intro he
    rw [hs]
    show is_connected (deliver s.self _) = true
    rw [he]
    exact h

theorem publish_when_connected_witness :
    is_connected connected_up.self = true ∧
      ∃ rand param,
        rand = (scripted.sys_rand32_get connected_up.world).1 % 2 ^ 32 ∧
        (publish scripted "sensors/temperature" "21.5" connected_up).2.log =
          connected_up.log ++ [Action.sys_rand32_get rand, Action.mqtt_publish param] ∧
        param.message.topic.qos = 1 ∧ param.dup_flag = 0 ∧ param.retain_flag = 0 ∧
        param.message.topic.topic.utf8 = "sensors/temperature" ∧
        param.message.topic.topic.size = strlen "sensors/temperature" ∧
        param.message.payload.data = "21.5" ∧
        param.message.payload.len = strlen "21.5" ∧
        param.message_id = rand % 2 ^ 16 ∧
        (publish scripted "sensors/temperature" "21.5" connected_up).1 =
          (scripted.mqtt_publish param (scripted.sys_rand32_get connected_up.world).2).ret ∧
        ((publish scripted "sensors/temperature" "21.5" connected_up).1 = 0 ↔
          (scripted.mqtt_publish param
            (scripted.sys_rand32_get connected_up.world).2).ret = 0) ∧
        (publish scripted "sensors/temperature" "21.5" connected_up).2.self =
          deliver connected_up.self
            (scripted.mqtt_publish param
              (scripted.sys_rand32_get connected_up.world).2).events ∧
        ((scripted.mqtt_publish param
            (scripted.sys_rand32_get connected_up.world).2).events = [] →
          is_connected (publish scripted "sensors/temperature" "21.5" connected_up).2.self
            = true) :=
  ⟨by decide,
    publish_when_connected scripted "sensors/temperature" "21.5" connected_up (by decide)⟩

/-! ## The publish loop -/

/-- Claim C9. An iteration of the loop in `main` that starts disconnected and whose
`connect()` returns a negative code executes only that `connect()` and the 5000 ms
back-off sleep: no `publish`, no `poll`, the counter is not advanced. Every other
iteration reaches the publish step and there executes, in this order,
`read_temperature`, `publish` on the configured topic with the payload built
from the old counter value, `poll`, and the 5000 ms sleep; the `uint32_t` counter
advances by one. -/
theorem loop_body_order {W : Type} (z : Zephyr W) (m : MainState W) :
    (is_connected m.publisher.self = false → (connect z m.publisher).1 < 0 →
      loop_body z m =
        { publisher := k_sleep z 5000 (connect z m.publisher).2,
          loop_count := m.loop_count,
          steps := m.steps ++
            [MainStep.connect (connect z m.publisher).1, MainStep.k_sleep 5000] }) ∧
    (is_connected m.publisher.self = true ∨ ¬ (connect z m.publisher).1 < 0 →
      ∃ before s0,
        (before = [] ∧ s0 = m.publisher ∨
          before = [MainStep.connect (connect z m.publisher).1] ∧
            s0 = (connect z m.publisher).2) ∧
        (loop_body z m).steps = m.steps ++ before ++
          [MainStep.read_temperature,
            MainStep.publish MQTT_PUB_TOPIC
              (snprintf_payload (read_temperature z s0).1 m.loop_count)
              (publish z MQTT_PUB_TOPIC
                (snprintf_payload (read_temperature z s0).1 m.loop_count)
                (read_temperature z s0).2).1,
            MainStep.poll, MainStep.k_sleep 5000] ∧
        (loop_body z m).publisher =
          k_sleep z 5000 (poll z
            (publish z MQTT_PUB_TOPIC
              (snprintf_payload (read_temperature z s0).1 m.loop_count)
              (read_temperature z s0).2).2) ∧
        (loop_body z m).loop_count = (m.loop_count + 1) % 2 ^ 32) := by
  constructor
  · intro hc hneg
    simp [loop_body, hc, hneg]
  · intro hreach
    cases hc : is_connected m.publisher.self with
    | true =>
      refine ⟨[], m.publisher, Or.inl ⟨rfl, rfl⟩, ?_, ?_, ?_⟩ <;>
        simp [loop_body, publish_tick, hc, PUBLISH_INTERVAL_MS]
    | false =>
      have hneg : ¬ (connect z m.publisher).1 < 0 := by
        rcases hreach with h | h
        · rw [hc] at h; exact absurd h (by decide)
        · exact h
      refine ⟨[MainStep.connect (connect z m.publisher).1], (connect z m.publisher).2,
        Or.inr ⟨rfl, rfl⟩, ?_, ?_, ?_⟩ <;>
        simp [loop_body, publish_tick, hc, hneg, PUBLISH_INTERVAL_MS]

theorem loop_body_order_witness :
    (is_connected main_lost.publisher.self = false ∧
      (connect scripted main_lost.publisher).1 < 0 ∧
      loop_body scripted main_lost =
        { publisher := k_sleep scripted 5000 (connect scripted main_lost.publisher).2,
          loop_count := main_lost.loop_count,
          steps := main_lost.steps ++
            [MainStep.connect (connect scripted main_lost.publisher).1,
              MainStep.k_sleep 5000] }) ∧
    ((is_connected main_connected.publisher.self = true ∨
        ¬ (connect scripted main_connected.publisher).1 < 0) ∧
      ∃ before s0,
        (before = [] ∧ s0 = main_connected.publisher ∨
          before = [MainStep.connect (connect scripted main_connected.publisher).1] ∧
            s0 = (connect scripted main_connected.publisher).2) ∧
        (loop_body scripted main_connected).steps = main_connected.steps ++ before ++
          [MainStep.read_temperature,
            MainStep.publish MQTT_PUB_TOPIC
              (snprintf_payload (read_temperature scripted s0).1 main_connected.loop_count)
              (publish scripted MQTT_PUB_TOPIC
                (snprintf_payload (read_temperature scripted s0).1 main_connected.loop_count)
                (read_temperature scripted s0).2).1,
            MainStep.poll, MainStep.k_sleep 5000] ∧
        (loop_body scripted main_connected).publisher =
          k_sleep scripted 5000 (poll scripted
            (publish scripted MQTT_PUB_TOPIC
              (snprintf_payload (read_temperature scripted s0).1 main_connected.loop_count)
              (read_temperature scripted s0).2).2) ∧
        (loop_body scripted main_connected).loop_count
          = (main_connected.loop_count + 1) % 2 ^ 32) :=
  ⟨⟨by decide, by decide,
      (loop_body_order scripted main_lost).1 (by decide) (by decide)⟩,
    ⟨Or.inl (by decide),
      (loop_body_order scripted main_connected).2 (Or.inl (by decide))⟩⟩

/-- Claim C10. When `is_connected()` is false, `poll()` calls neither `mqtt_input`
nor `mqtt_live`: the publisher and the world are as before and the log gains
only the entry marker. When it is true, `poll()` calls `mqtt_input` once and then
`mqtt_live` once, in that order, and the handler sees the events of both. -/
theorem poll_gated_on_connection {W : Type} (z : Zephyr W) (s : Sys W) :
    (is_connected s.self = false →
      poll z s = { s with log := s.log ++ [Action.poll] }) ∧
    (is_connected s.self = true →
      (poll z s).log = s.log ++ [Action.poll, Action.mqtt_input, Action.mqtt_live] ∧
      (poll z s).world = (z.mqtt_live (z.mqtt_input s.world).world).world ∧
      (poll z s).self =
        deliver (deliver s.self (z.mqtt_input s.world).events)
          (z.mqtt_live (z.mqtt_input s.world).world).events) := by
  constructor
  · intro h
    simp only [is_connected] at h
    simp [poll, h]
  · intro h
    simp only [is_connected] at h
    simp [poll, h]

theorem poll_gated_on_connection_witness :
    (is_connected fresh_with_connack.self = false ∧
      poll scripted fresh_with_connack =
        { fresh_with_connack with log := fresh_with_connack.log ++ [Action.poll] }) ∧
    (is_connected connected_up.self = true ∧
      ((poll scripted connected_up).log =
          connected_up.log ++ [Action.poll, Action.mqtt_input, Action.mqtt_live] ∧
        (poll scripted connected_up).world =
          (scripted.mqtt_live (scripted.mqtt_input connected_up.world).world).world ∧
        (poll scripted connected_up).self =
          deliver (deliver connected_up.self (scripted.mqtt_input connected_up.world).events)
            (scripted.mqtt_live (scripted.mqtt_input connected_up.world).world).events)) :=
  ⟨⟨by decide, (poll_gated_on_connection scripted fresh_with_connack).1 (by decide)⟩,
    ⟨by decide, (poll_gated_on_connection scripted connected_up).2 (by decide)⟩⟩

end MqttPub
